import Mathlib

/-!
Shallow embedding of the GeoSketch-OSM core: the Zustand feature store
(`src/store/featureStore.ts`), the geometry helpers and overlap-validation
engine (`src/utils/polygonUtils.ts`), the line-exemption hook
(`src/hooks/useOverlapValidation.ts`), the per-kind caps
(`src/config/shapeLimits.ts`) and the GeoJSON import loop
(`ImportButton.tsx`).

JavaScript numbers are modelled as rationals (ℚ); the external Turf.js
clipping primitives are modelled as an explicit record of operations
(`ClipOps`) over an abstract polygon type, with exceptions modelled by
`Except.error`; the store's `set`-based mutations become pure functions
on an explicit `FeatureState`.
-/

namespace GeoSketch

/-- A GeoJSON position: `[lng, lat]` pair of numbers. -/
abbrev Pos := ℚ × ℚ

/-- Source `ShapeType` from `src/types/geometry.ts`:
`'polygon' | 'rectangle' | 'circle' | 'line'`. -/
inductive ShapeType where
  | polygon
  | rectangle
  | circle
  | line
deriving DecidableEq, Repr

/-- The lowercase string tag of a shape kind. -/
def shapeTypeName : ShapeType → String
  | .polygon => "polygon"
  | .rectangle => "rectangle"
  | .circle => "circle"
  | .line => "line"

/-- The tag with its first character upper-cased, as computed by
`generateShapeName` via `charAt(0).toUpperCase() + slice(1)`. -/
def shapeNameHead : ShapeType → String
  | .polygon => "Polygon"
  | .rectangle => "Rectangle"
  | .circle => "Circle"
  | .line => "Line"

/-- Source `shapeLimits` from `src/config/shapeLimits.ts`. -/
def shapeLimits : ShapeType → Nat
  | .polygon => 10
  | .rectangle => 5
  | .circle => 5
  | .line => 20

/-- The GeoJSON `Geometry` payloads the core distinguishes: `Polygon`,
`MultiPolygon` and `LineString` coordinates; `point` stands for every
other GeoJSON geometry type (hit only by default branches). -/
inductive Geometry where
  | polygon (coordinates : List (List Pos))
  | multiPolygon (coordinates : List (List (List Pos)))
  | lineString (coordinates : List Pos)
  | point (coordinates : Pos)
deriving DecidableEq, Repr

/-- Source `FeatureProperties` from `src/types/geometry.ts`; optional fields are
`Option`s. -/
structure FeatureProperties where
  id : String
  shapeType : ShapeType
  createdAt : Nat
  name : Option String := none
  area : Option ℚ := none
  length : Option ℚ := none
  radius : Option ℚ := none
  center : Option Pos := none
deriving DecidableEq, Repr

/-- Source `GeoFeature` from `src/types/geometry.ts`. -/
structure GeoFeature where
  id : String
  geometry : Geometry
  shapeType : ShapeType
  properties : FeatureProperties
deriving DecidableEq, Repr

/-- A `Partial<FeatureProperties>` object spread over existing properties:
only the optional display fields can be overridden. -/
structure PropsOverride where
  name : Option String := none
  area : Option ℚ := none
  length : Option ℚ := none
  radius : Option ℚ := none
  center : Option Pos := none
deriving DecidableEq, Repr

/-- Object-spread semantics: a key present in the override wins. -/
def mergeProps (p : FeatureProperties) (o : PropsOverride) : FeatureProperties :=
  { p with
    name := match o.name with | some x => some x | none => p.name,
    area := match o.area with | some x => some x | none => p.area,
    length := match o.length with | some x => some x | none => p.length,
    radius := match o.radius with | some x => some x | none => p.radius,
    center := match o.center with | some x => some x | none => p.center }

/-- Toast severity tags from `featureStore.ts`. -/
inductive ToastType where
  | success
  | error
  | warning
  | info
deriving DecidableEq, Repr

/-- Source `ToastMessage` from `featureStore.ts`. -/
structure ToastMessage where
  id : String
  type : ToastType
  message : String
  duration : Option Nat := none
deriving DecidableEq, Repr

/-- Source `HistoryState` from `featureStore.ts`. -/
structure HistoryState where
  past : List (List GeoFeature)
  present : List GeoFeature
  future : List (List GeoFeature)
deriving DecidableEq, Repr

/-- Source `Record<ShapeType, number>` holding the per-kind counters. -/
structure ShapeCounts where
  polygon : Nat
  rectangle : Nat
  circle : Nat
  line : Nat
deriving DecidableEq, Repr

/-- Read the counter of one kind. -/
def ShapeCounts.get (c : ShapeCounts) : ShapeType → Nat
  | .polygon => c.polygon
  | .rectangle => c.rectangle
  | .circle => c.circle
  | .line => c.line

/-- Write the counter of one kind (computed-key spread update). -/
def ShapeCounts.put (c : ShapeCounts) : ShapeType → Nat → ShapeCounts
  | .polygon, n => { c with polygon := n }
  | .rectangle, n => { c with rectangle := n }
  | .circle, n => { c with circle := n }
  | .line, n => { c with line := n }

/-- The mutable state of the Zustand store (`FeatureState` in
`featureStore.ts`). -/
structure FeatureState where
  features : List GeoFeature
  selectedFeatureId : Option String
  error : Option String
  toasts : List ToastMessage
  history : HistoryState
  shapeCounts : ShapeCounts
deriving DecidableEq, Repr

/-- The store's initial state. -/
def initialState : FeatureState :=
  { features := []
    selectedFeatureId := none
    error := none
    toasts := []
    history := { past := [], present := [], future := [] }
    shapeCounts := ⟨0, 0, 0, 0⟩ }

/-- Source `MAX_HISTORY_LENGTH` in `featureStore.ts`. -/
def MAX_HISTORY_LENGTH : Nat := 50

/-- JavaScript `array.slice(-n)`: the last `n` elements (all of them when
the array is shorter). -/
def sliceLast (n : Nat) (l : List α) : List α :=
  l.drop (l.length - n)

/-- Source `pushToHistory` from `featureStore.ts`:
`[...past, present].slice(-MAX_HISTORY_LENGTH)`, new present, empty future. -/
def pushToHistory (history : HistoryState) (newPresent : List GeoFeature) : HistoryState :=
  { past := sliceLast MAX_HISTORY_LENGTH (history.past ++ [history.present])
    present := newPresent
    future := [] }

/-- The external measurement primitives used by `calculateArea` /
`calculateLength` (`turf.area`, `turf.length`): kept abstract, the store's
behaviour never depends on the numbers they return. -/
structure MeasureOps where
  turfArea : Geometry → ℚ
  turfLength : Geometry → ℚ

/-- Source `calculateArea` from `polygonUtils.ts`: 0 unless the geometry is
polygonal. -/
def calculateArea (ops : MeasureOps) : Geometry → ℚ
  | .polygon cs => ops.turfArea (.polygon cs)
  | .multiPolygon cs => ops.turfArea (.multiPolygon cs)
  | _ => 0

/-- Source `calculateLength` from `polygonUtils.ts`: 0 unless the geometry is a
`LineString`. -/
def calculateLength (ops : MeasureOps) : Geometry → ℚ
  | .lineString cs => ops.turfLength (.lineString cs)
  | _ => 0

/-- Source `calculateMetadata` from `featureStore.ts`. -/
def calculateMetadata (ops : MeasureOps) (geometry : Geometry) (shapeType : ShapeType) :
    PropsOverride :=
  if shapeType = .line then { length := some (calculateLength ops geometry) }
  else { area := some (calculateArea ops geometry) }

/-- Source `generateShapeName` from `featureStore.ts`. -/
def generateShapeName (shapeType : ShapeType) (count : Nat) : String :=
  shapeNameHead shapeType ++ "-" ++ toString (count + 1)

/-- The `error` string set when a per-kind cap is hit. -/
def limitErrorMessage (t : ShapeType) : String :=
  "Maximum " ++ toString (shapeLimits t) ++ " " ++ shapeTypeName t ++
    "(s) allowed. Limit reached."

/-- The toast message shown when a per-kind cap is hit. -/
def limitToastMessage (t : ShapeType) : String :=
  "Limit reached: Maximum " ++ toString (shapeLimits t) ++ " " ++ shapeTypeName t ++
    "(s) allowed."

/-- Source `addFeature` from `featureStore.ts`. The impure inputs (generated
feature id, generated toast id, `Date.now()`) are passed explicitly;
returns the new state together with the returned id (`null` ↦ `none`). -/
def addFeature (ops : MeasureOps) (s : FeatureState) (geometry : Geometry)
    (shapeType : ShapeType) (additionalProps : PropsOverride)
    (freshId toastId : String) (now : Nat) : FeatureState × Option String :=
  let currentCount := (s.features.filter (fun f => f.shapeType == shapeType)).length
  if currentCount ≥ shapeLimits shapeType then
    ({ s with
        error := some (limitErrorMessage shapeType)
        toasts := s.toasts ++
          [{ id := toastId, type := .error, message := limitToastMessage shapeType,
             duration := some 4000 }] },
     none)
  else
    let name := generateShapeName shapeType currentCount
    let metadata := calculateMetadata ops geometry shapeType
    let baseProps : FeatureProperties :=
      { id := freshId, shapeType := shapeType, createdAt := now, name := some name }
    let newFeature : GeoFeature :=
      { id := freshId, geometry := geometry, shapeType := shapeType
        properties := mergeProps (mergeProps baseProps metadata) additionalProps }
    let newFeatures := s.features ++ [newFeature]
    ({ s with
        features := newFeatures
        error := none
        history := pushToHistory s.history newFeatures
        shapeCounts := s.shapeCounts.put shapeType (s.shapeCounts.get shapeType + 1) },
     some freshId)

/-- Source `updateFeature` from `featureStore.ts`: silently returns when the id
is not found. -/
def updateFeature (ops : MeasureOps) (s : FeatureState) (id : String)
    (geometry : Geometry) : FeatureState :=
  match s.features.find? (fun f => f.id == id) with
  | none => s
  | some feature =>
    let metadata := calculateMetadata ops geometry feature.shapeType
    let newFeatures := s.features.map (fun f =>
      if f.id == id then
        { f with geometry := geometry, properties := mergeProps f.properties metadata }
      else f)
    { s with features := newFeatures, history := pushToHistory s.history newFeatures }

/-- Source `removeFeature` from `featureStore.ts`: filters the id out and pushes
history unconditionally; the shape counters are not touched. -/
def removeFeature (s : FeatureState) (id : String) : FeatureState :=
  let newFeatures := s.features.filter (fun f => f.id != id)
  { s with
    features := newFeatures
    selectedFeatureId :=
      if s.selectedFeatureId == some id then none else s.selectedFeatureId
    history := pushToHistory s.history newFeatures }

/-- Source `clearFeatures` from `featureStore.ts`. -/
def clearFeatures (s : FeatureState) : FeatureState :=
  { s with
    features := []
    selectedFeatureId := none
    error := none
    history := pushToHistory s.history []
    shapeCounts := ⟨0, 0, 0, 0⟩ }

/-- Source `undo` from `featureStore.ts`. -/
def undo (s : FeatureState) : FeatureState :=
  match s.history.past.getLast? with
  | none => s
  | some previous =>
    { s with
      features := previous
      history :=
        { past := s.history.past.dropLast
          present := previous
          future := s.features :: s.history.future } }

/-- Source `redo` from `featureStore.ts`. -/
def redo (s : FeatureState) : FeatureState :=
  match s.history.future with
  | [] => s
  | next :: newFuture =>
    { s with
      features := next
      history :=
        { past := s.history.past ++ [s.features]
          present := next
          future := newFuture } }

/-- Source `setFeatures` from `featureStore.ts`. -/
def setFeatures (s : FeatureState) (features : List GeoFeature) : FeatureState :=
  { s with features := features, history := pushToHistory s.history features }

/-- Source `importFeatures` from `featureStore.ts`. -/
def importFeatures (s : FeatureState) (features : List GeoFeature) : FeatureState :=
  let newFeatures := s.features ++ features
  { s with features := newFeatures, history := pushToHistory s.history newFeatures }

/-! ### Overlap resolution engine (`src/utils/polygonUtils.ts`) -/

/-- Source `isPolygonalShape` from `polygonUtils.ts`. -/
def isPolygonalShape (t : ShapeType) : Bool :=
  t == .polygon || t == .rectangle || t == .circle

/-- The `ValidationResult` record from `src/types/geometry.ts`,
parameterized by the polygon representation: `error` holds the rejection
reason, `trimmedGeometry` the clipped polygon when trimming occurred
(`none` covers both `null` and an absent field). -/
structure ValidationResult (P : Type) where
  isValid : Bool
  trimmedGeometry : Option P := none
  error : Option String := none
deriving DecidableEq, Repr

/-- The external Turf.js primitives used by the engine, over an abstract
polygon type `P`. A thrown JavaScript exception is `Except.error`;
`turf.intersect` / `turf.difference` returning `null` is `.ok none`.
`mkPolygon` / `mkMultiPolygon` are `turf.polygon` / `turf.multiPolygon`
(which validate their coordinate arrays and can throw); `toGeometry`
reads the `.geometry` of a polygon feature. -/
structure ClipOps (P : Type) where
  mkPolygon : List (List Pos) → Except String P
  mkMultiPolygon : List (List (List Pos)) → Except String P
  intersect : P → P → Except String (Option P)
  difference : P → P → Except String (Option P)
  area : P → ℚ
  toGeometry : P → Geometry

/-- Source `getPolygonFromGeometry` from `polygonUtils.ts`: normalizes
`Polygon` / `MultiPolygon` inputs (possibly throwing from the turf
constructors), `null` for everything else. -/
def getPolygonFromGeometry (ops : ClipOps P) : Geometry → Except String (Option P)
  | .polygon coordinates => (ops.mkPolygon coordinates).map some
  | .multiPolygon coordinates => (ops.mkMultiPolygon coordinates).map some
  | _ => .ok none

/-- Rejection reason when the candidate is (near-)fully contained in an
existing polygon. -/
def fullyContainedMsg : String :=
  "Cannot create a polygon that is fully contained within an existing polygon."

/-- Rejection reason when the candidate (near-)fully contains an existing
polygon. -/
def fullyContainsMsg : String :=
  "Cannot create a polygon that fully contains an existing polygon."

/-- Rejection reason when the trimmed difference is empty. -/
def degenerateTrimMsg : String :=
  "Polygon would be completely removed after trimming overlaps."

/-- Rejection reason produced by the `catch` block around the clipping
calls. -/
def validationFailedMsg : String :=
  "Failed to validate polygon overlap. Please try again."

/-- The `for (const existing of existingPolygons)` loop of
`validatePolygonOverlap`, carrying the running `currentPolygon` and the
`wasTrimmed` flag. The `try/catch` wraps each iteration's clipping calls,
so a thrown intersection/difference turns into the `validationFailedMsg`
rejection (a `return` inside the loop ends the whole validation). -/
def validateLoop (ops : ClipOps P) : P → Bool → List P → ValidationResult P
  | currentPolygon, wasTrimmed, [] =>
    { isValid := true
      trimmedGeometry := if wasTrimmed then some currentPolygon else none }
  | currentPolygon, wasTrimmed, existing :: rest =>
    match ops.intersect currentPolygon existing with
    | .error _ => { isValid := false, error := some validationFailedMsg }
    | .ok none => validateLoop ops currentPolygon wasTrimmed rest
    | .ok (some intersection) =>
      let currentArea := ops.area currentPolygon
      let existingArea := ops.area existing
      let intersectionArea := ops.area intersection
      if intersectionArea / currentArea > 99 / 100 then
        { isValid := false, error := some fullyContainedMsg }
      else if intersectionArea / existingArea > 99 / 100 then
        { isValid := false, error := some fullyContainsMsg }
      else
        match ops.difference currentPolygon existing with
        | .error _ => { isValid := false, error := some validationFailedMsg }
        | .ok none => { isValid := false, error := some degenerateTrimMsg }
        | .ok (some diff) => validateLoop ops diff true rest

/-- Source `validatePolygonOverlap` from `polygonUtils.ts`. The two
`getPolygonFromGeometry` calls (candidate normalization and the
`existingFeatures.map`) sit outside the loop's `try/catch`, so an
exception thrown there propagates out of the function (`Except.error`). -/
def validatePolygonOverlap (ops : ClipOps P) (newGeometry : Geometry)
    (existingFeatures : List GeoFeature) (excludeId : Option String) :
    Except String (ValidationResult P) := do
  let newPolygonFeature ← getPolygonFromGeometry ops newGeometry
  match newPolygonFeature with
  | none => return { isValid := true }
  | some newPoly =>
    let filtered := existingFeatures.filter (fun f =>
      isPolygonalShape f.shapeType && !(some f.id == excludeId))
    let existingPolygons ← filtered.mapM (fun f => getPolygonFromGeometry ops f.geometry)
    return validateLoop ops newPoly false (existingPolygons.filterMap id)

/-! ### A concrete clipping model

`Grid` realizes `ClipOps` with polygons as finite sets of unit cells:
intersection, difference and area are exact set operations, matching the
behaviour of an ideal clipping backend. `mkPolygon` performs the ring
validation of the turf `polygon` constructor (external library): every
linear ring must have at least 4 positions and be closed, otherwise it
throws; `mkMultiPolygon` performs no ring validation, as in the library.
Coordinates are mapped to cells by taking floors of the vertices. -/

/-- Polygons as finite sets of unit cells. -/
abbrev Grid := Finset (ℤ × ℤ)

/-- The cell a coordinate pair falls in. -/
def cellOf (p : Pos) : ℤ × ℤ := (⌊p.1⌋, ⌊p.2⌋)

/-- Ring validation of the turf `polygon` constructor: the error thrown
for the first invalid ring, `none` when the ring is acceptable. -/
def turfRingError (ring : List Pos) : Option String :=
  if ring.length < 4 then
    some "Each LinearRing of a Polygon must have 4 or more Positions."
  else if ring.head? != ring.getLast? then
    some "First and last Position are not equivalent."
  else none

/-- Cells covered by a list of rings. -/
def gridOfCoords (coordinates : List (List Pos)) : Grid :=
  (coordinates.flatten.map cellOf).toFinset

/-- The concrete clipping backend on `Grid`. -/
def gridOps : ClipOps Grid where
  mkPolygon := fun coordinates =>
    match coordinates.findSome? turfRingError with
    | some msg => .error msg
    | none => .ok (gridOfCoords coordinates)
  mkMultiPolygon := fun coordinates => .ok (gridOfCoords coordinates.flatten)
  intersect := fun a b => .ok (if (a ∩ b).Nonempty then some (a ∩ b) else none)
  difference := fun a b => .ok (if (a \ b).Nonempty then some (a \ b) else none)
  area := fun g => (g.card : ℚ)
  toGeometry := fun _ => Geometry.point (0, 0)

/-- A backend that behaves like `gridOps` except that the clipping
primitives return prescribed results — used to exercise the throwing and
degenerate branches. -/
def withClip (i d : Except String (Option Grid)) : ClipOps Grid :=
  { gridOps with intersect := fun _ _ => i, difference := fun _ _ => d }

/-! ### GeoJSON import (`ImportButton.tsx`) -/

/-- Source `detectShapeType` from `ImportButton.tsx`. -/
def detectShapeType : Geometry → Option ShapeType
  | .polygon _ => some .polygon
  | .lineString _ => some .line
  | .multiPolygon _ => some .polygon
  | .point _ => none

/-- An incoming GeoJSON feature: its geometry (possibly absent) and its
`properties` payload (spread over the created feature's properties;
`props.name` is the `existingName` read by the loop). -/
structure ImportFeature where
  geometry : Option Geometry
  props : PropsOverride := {}
deriving DecidableEq, Repr

/-- The accumulator of the import loop: accepted features so far and the
skipped/trimmed counters. -/
structure ImportAcc where
  importedFeatures : List GeoFeature
  skippedCount : Nat
  trimmedCount : Nat
deriving DecidableEq, Repr

/-- The `GeoFeature` committed for one accepted import, as built in the
loop body (no metadata is computed on import). -/
def mkImportedFeature (fids : Nat → String) (now : Nat) (acc : ImportAcc)
    (shapeType : ShapeType) (finalGeometry : Geometry) (f : ImportFeature) : GeoFeature :=
  let id := fids acc.importedFeatures.length
  let name :=
    match f.props.name with
    | some existingName => existingName
    | none =>
      "Imported-" ++ shapeTypeName shapeType ++ "-" ++
        toString (acc.importedFeatures.length + 1)
  { id := id
    geometry := finalGeometry
    shapeType := shapeType
    properties := mergeProps
      { id := id, shapeType := shapeType, createdAt := now, name := some name }
      f.props }

/-- One iteration of the `for (const feature of featuresToImport)` loop in
`handleFileSelect`: fresh ids come from `fids` indexed by how many
features were accepted so far; `storeFeatures` is the store's committed
feature list (both `getFeatureCount` and `validateNewPolygon` read it).
An exception escaping `validateNewPolygon` aborts the whole import (it is
caught only by the file-level handler). -/
def importStep (ops : ClipOps P) (storeFeatures : List GeoFeature)
    (fids : Nat → String) (now : Nat) (acc : ImportAcc) (f : ImportFeature) :
    Except String ImportAcc :=
  match f.geometry with
  | none => .ok { acc with skippedCount := acc.skippedCount + 1 }
  | some geom =>
    match detectShapeType geom with
    | none => .ok { acc with skippedCount := acc.skippedCount + 1 }
    | some shapeType =>
      let currentCount :=
        (storeFeatures.filter (fun x => x.shapeType == shapeType)).length +
          (acc.importedFeatures.filter (fun x => x.shapeType == shapeType)).length
      if currentCount ≥ shapeLimits shapeType then
        .ok { acc with skippedCount := acc.skippedCount + 1 }
      else do
        let validation ←
          if isPolygonalShape shapeType then
            validatePolygonOverlap ops geom storeFeatures none
          else
            pure { isValid := true }
        if !validation.isValid then
          return { acc with skippedCount := acc.skippedCount + 1 }
        else
          match validation.trimmedGeometry with
          | some trimmed =>
            return { acc with
              importedFeatures := acc.importedFeatures ++
                [mkImportedFeature fids now acc shapeType (ops.toGeometry trimmed) f]
              trimmedCount := acc.trimmedCount + 1 }
          | none =>
            return { acc with
              importedFeatures := acc.importedFeatures ++
                [mkImportedFeature fids now acc shapeType geom f] }

/-- The whole import loop over the file's features. -/
def importLoop (ops : ClipOps P) (storeFeatures : List GeoFeature)
    (fids : Nat → String) (now : Nat) (fs : List ImportFeature) :
    Except String ImportAcc :=
  fs.foldlM (importStep ops storeFeatures fids now) ⟨[], 0, 0⟩

/-! ### Concrete fixtures for evaluation -/

/-- Trivial measurement backend. -/
def mops0 : MeasureOps := ⟨fun _ => 0, fun _ => 0⟩

/-- A minimal committed feature of a given kind. -/
def mkFeat (i : String) (t : ShapeType) : GeoFeature :=
  { id := i
    geometry := Geometry.point (0, 0)
    shapeType := t
    properties := { id := i, shapeType := t, createdAt := 0 } }

/-- Ten committed polygon features. -/
def tenPolyFeatures : List GeoFeature :=
  (List.range 10).map (fun i => mkFeat ("p" ++ toString i) .polygon)

/-- A store state holding exactly ten polygons (the polygon cap). -/
def tenPolyState : FeatureState :=
  { features := tenPolyFeatures
    selectedFeatureId := none
    error := none
    toasts := []
    history := { past := [], present := tenPolyFeatures, future := [] }
    shapeCounts := ⟨10, 0, 0, 0⟩ }

/-- A store state with one feature and a non-empty redo stack. -/
def s8 : FeatureState :=
  { features := [mkFeat "a" .polygon]
    selectedFeatureId := none
    error := none
    toasts := []
    history := { past := [], present := [mkFeat "a" .polygon], future := [[]] }
    shapeCounts := ⟨1, 0, 0, 0⟩ }

/-- A store state with one feature and a non-empty past stack. -/
def s10 : FeatureState :=
  { features := [mkFeat "a" .polygon]
    selectedFeatureId := none
    error := none
    toasts := []
    history := { past := [[]], present := [mkFeat "a" .polygon], future := [] }
    shapeCounts := ⟨1, 0, 0, 0⟩ }

/-- Two-cell grid polygon. -/
def gA : Grid := {(0, 0), (1, 0)}

/-- Three-cell grid polygon. -/
def gB : Grid := {(0, 0), (1, 0), (2, 0)}

/-- One-cell grid polygon contained in `gB`. -/
def gSmall : Grid := {(0, 0)}

/-- Candidate grid for partial-overlap runs. -/
def cW : Grid := {(0, 0), (1, 0), (2, 0)}

/-- Existing grid sharing exactly one cell with `cW`. -/
def eW : Grid := {(2, 0), (3, 0), (4, 0)}

/-- The shared cell of `cW` and `eW`. -/
def iW : Grid := {(2, 0)}

/-- A `Polygon` coordinate array with a 3-position ring. -/
def badRing : List (List Pos) := [[(0, 0), (1, 0), (0, 0)]]

/-- A valid unit-square `Polygon` geometry. -/
def pSquare : Geometry := Geometry.polygon [[(0, 0), (1, 0), (1, 1), (0, 0)]]

/-- A GeoJSON feature wrapping `pSquare` for import. -/
def impF : ImportFeature := { geometry := some pSquare }

/-- Deterministic fresh ids for import runs. -/
def fidsW : Nat → String := fun n => "import-" ++ toString n

/-- A committed polygonal feature whose geometry is `pSquare`. -/
def f9 : GeoFeature :=
  { id := "x"
    geometry := pSquare
    shapeType := .polygon
    properties := { id := "x", shapeType := .polygon, createdAt := 0 } }

/-- The grid of `pSquare`'s coordinates. -/
def sqG : Grid := gridOfCoords [[(0, 0), (1, 0), (1, 1), (0, 0)]]

/-! ### Claims -/

/-- C5: for every line geometry and every set of committed features,
overlap validation accepts the geometry unchanged with no trim and no
error, without consulting any existing feature (the result is independent
of `feats`), and the hook's `isPolygonalShape` gate is false for lines. -/
theorem claim5_line_exempt {P : Type} (ops : ClipOps P) (coords : List Pos)
    (feats : List GeoFeature) (ex : Option String) :
    validatePolygonOverlap ops (Geometry.lineString coords) feats ex =
      .ok { isValid := true, trimmedGeometry := none, error := none } ∧
    isPolygonalShape .line = false :=
  ⟨rfl, rfl⟩

/-- C3 (code bug): adding a polygon and then removing it leaves the stored
polygon counter at 1 while the present collection holds no polygon —
`removeFeature` never decrements the shape-kind counter. -/
theorem claim3_counter_not_decremented :
    (removeFeature
        (addFeature mops0 initialState (Geometry.point (0, 0)) .polygon {} "f1" "t1" 0).1
        "f1").shapeCounts.get .polygon = 1 ∧
    ((removeFeature
        (addFeature mops0 initialState (Geometry.point (0, 0)) .polygon {} "f1" "t1" 0).1
        "f1").features.filter (fun f => f.shapeType == ShapeType.polygon)).length = 0 := by
  decide

/-- C6: when the live count of a kind already equals its cap, `addFeature`
returns no id, surfaces the limit error, and leaves features, history and
shape counters unchanged. -/
theorem claim6_cap_enforcement (ops : MeasureOps) (s : FeatureState) (g : Geometry)
    (t : ShapeType) (o : PropsOverride) (fid tid : String) (now : Nat)
    (hfull : (s.features.filter (fun f => f.shapeType == t)).length = shapeLimits t) :
    (addFeature ops s g t o fid tid now).2 = none ∧
    (addFeature ops s g t o fid tid now).1.features = s.features ∧
    (addFeature ops s g t o fid tid now).1.history = s.history ∧
    (addFeature ops s g t o fid tid now).1.shapeCounts = s.shapeCounts ∧
    (addFeature ops s g t o fid tid now).1.error = some (limitErrorMessage t) := by
  have hge : (s.features.filter (fun f => f.shapeType == t)).length ≥ shapeLimits t :=
    le_of_eq hfull.symm
  simp [addFeature, hge]

/-- Witness for C6: the 11th polygon create on a ten-polygon store is
rejected and the feature list is untouched. -/
theorem claim6_witness :
    (addFeature mops0 tenPolyState (Geometry.point (0, 0)) .polygon {} "f11" "t11" 0).2 =
      none ∧
    (addFeature mops0 tenPolyState (Geometry.point (0, 0)) .polygon {} "f11" "t11" 0).1.features =
      tenPolyState.features := by
  have h := claim6_cap_enforcement mops0 tenPolyState (Geometry.point (0, 0)) .polygon {}
    "f11" "t11" 0 (by decide)
  exact ⟨h.1, h.2.1⟩

/-- C8 counterexample: on a stale id, `removeFeature` does not leave the
store unchanged — it pushes the unchanged feature list onto `past` and
clears `future` (and no NotFound error is surfaced anywhere). -/
theorem claim8_counterexample :
    s8.features.find? (fun f => f.id == "zz") = none ∧
    removeFeature s8 "zz" ≠ s8 ∧
    (removeFeature s8 "zz").history.future = [] ∧
    s8.history.future ≠ [] ∧
    (removeFeature s8 "zz").error = none := by
  decide

/-- C8 as amended: on a stale id, `updateFeature` is a complete silent
no-op (no error surfaced), while `removeFeature` leaves features, error,
toasts and shape counters unchanged but still pushes the unchanged
feature list through `pushToHistory` (growing `past`, emptying `future`)
and applies its selection rule; neither reports NotFound. -/
theorem claim8_stale_id_behavior (ops : MeasureOps) (s : FeatureState) (id : String)
    (g : Geometry) (h : s.features.find? (fun f => f.id == id) = none) :
    updateFeature ops s id g = s ∧
    (removeFeature s id).features = s.features ∧
    (removeFeature s id).error = s.error ∧
    (removeFeature s id).toasts = s.toasts ∧
    (removeFeature s id).shapeCounts = s.shapeCounts ∧
    (removeFeature s id).selectedFeatureId =
      (if s.selectedFeatureId == some id then none else s.selectedFeatureId) ∧
    (removeFeature s id).history = pushToHistory s.history s.features := by
  have hall : ∀ f ∈ s.features, ¬((fun f => f.id == id) f = true) :=
    List.find?_eq_none.mp h
  have hfilter : s.features.filter (fun f => f.id != id) = s.features := by
    apply List.filter_eq_self.mpr
    intro f hf
    have := hall f hf
    simp only [bne]
    simpa using this
  refine ⟨?_, ?_, ?_, ?_, ?_, ?_, ?_⟩
  · simp only [updateFeature, h]
  all_goals simp [removeFeature, hfilter]

/-- Witness for C8's amended statement at a concrete stale id. -/
theorem claim8_witness :
    updateFeature mops0 s8 "zz" (Geometry.point (0, 0)) = s8 ∧
    (removeFeature s8 "zz").features = s8.features ∧
    (removeFeature s8 "zz").history = pushToHistory s8.history s8.features := by
  have h := claim8_stale_id_behavior mops0 s8 "zz" (Geometry.point (0, 0)) (by decide)
  exact ⟨h.1, h.2.1, h.2.2.2.2.2.2⟩

/-- C10: on any store state satisfying the store's representation
invariant `features = history.present` (every operation establishes it)
whose past stack is non-empty, `redo` after `undo` restores the state
exactly. -/
theorem claim10_undo_redo_identity (s : FeatureState)
    (hpp : s.history.present = s.features) (hne : s.history.past ≠ []) :
    redo (undo s) = s := by
  obtain ⟨sf, sel, err, ts, ⟨past, pres, fut⟩, cnt⟩ := s
  simp only at hpp hne
  subst hpp
  obtain ⟨L, b, rfl⟩ := (List.eq_nil_or_concat past).resolve_left hne
  simp [undo, redo, List.getLast?_concat, List.dropLast_concat]

/-- Witness for C10 at a concrete one-step state. -/
theorem claim10_witness : redo (undo s10) = s10 :=
  claim10_undo_redo_identity s10 rfl (by decide)

/-- C1: in the validation loop, whenever the intersection with the next
existing polygon exists and `intersection_area / current_area > 0.99`,
validation immediately rejects with the fully-contained reason whatever
the remaining features are; otherwise if
`intersection_area / existing_area > 0.99` it immediately rejects with
the fully-contains reason; the candidate-contained check is decided
first. -/
theorem claim1_containment_hard_stops {P : Type} (ops : ClipOps P)
    (currentPolygon existing inter : P) (wasTrimmed : Bool) (rest : List P)
    (hint : ops.intersect currentPolygon existing = .ok (some inter)) :
    (ops.area inter / ops.area currentPolygon > 99 / 100 →
      validateLoop ops currentPolygon wasTrimmed (existing :: rest) =
        { isValid := false, trimmedGeometry := none, error := some fullyContainedMsg }) ∧
    (¬ ops.area inter / ops.area currentPolygon > 99 / 100 →
      ops.area inter / ops.area existing > 99 / 100 →
      validateLoop ops currentPolygon wasTrimmed (existing :: rest) =
        { isValid := false, trimmedGeometry := none, error := some fullyContainsMsg }) := by
  constructor
  · intro h1
    simp [validateLoop, hint, h1]
  · intro h1 h2
    simp [validateLoop, hint, h1, h2]

/-- Witness for C1: a candidate equal to the existing polygon is rejected
as fully contained (both ratios exceed 0.99, the contained reason wins),
and a candidate strictly containing a small existing polygon is rejected
as fully containing it. -/
theorem claim1_witness :
    validateLoop gridOps gA false [gA] =
      { isValid := false, trimmedGeometry := none, error := some fullyContainedMsg } ∧
    validateLoop gridOps gB false [gSmall] =
      { isValid := false, trimmedGeometry := none, error := some fullyContainsMsg } := by
  have ha : (gA ∩ gA).card = 2 := by decide
  have ha2 : gA.card = 2 := by decide
  have hb : (gB ∩ gSmall).card = 1 := by decide
  have hb2 : gB.card = 3 := by decide
  have hbs : gSmall.card = 1 := by decide
  have h1 := claim1_containment_hard_stops gridOps gA gA (gA ∩ gA) false []
    (by simp only [gridOps]; rw [if_pos (by decide)])
  have h2 := claim1_containment_hard_stops gridOps gB gSmall (gB ∩ gSmall) false []
    (by simp only [gridOps]; rw [if_pos (by decide)])
  refine ⟨h1.1 ?_, h2.2 ?_ ?_⟩
  · simp only [gridOps, ha, ha2]; norm_num
  · simp only [gridOps, hb, hb2]; norm_num
  · simp only [gridOps, hb, hbs]; norm_num

/-- C2: on a partial overlap (non-empty intersection, both containment
ratios at most 0.99) the loop replaces the running candidate with the
boolean difference and sets the trimmed flag, continuing with the
remaining features; against a single overlapping feature the accepted
trimmed geometry is exactly `c \ e`, its area is strictly below the
candidate's and it no longer meets `e`; and (over any backend) an empty
difference rejects with the degenerate-after-trim reason. -/
theorem claim2_partial_overlap_trim (c e : Grid) (rest : List Grid)
    (hne : (c ∩ e).Nonempty)
    (h1 : ¬ gridOps.area (c ∩ e) / gridOps.area c > 99 / 100)
    (h2 : ¬ gridOps.area (c ∩ e) / gridOps.area e > 99 / 100) :
    validateLoop gridOps c false (e :: rest) = validateLoop gridOps (c \ e) true rest ∧
    validateLoop gridOps c false [e] =
      { isValid := true, trimmedGeometry := some (c \ e), error := none } ∧
    gridOps.area (c \ e) < gridOps.area c ∧
    (c \ e) ∩ e = ∅ ∧
    (∀ {Q : Type} (ops : ClipOps Q) (cur ex inter : Q) (w : Bool) (rs : List Q),
      ops.intersect cur ex = .ok (some inter) →
      ¬ ops.area inter / ops.area cur > 99 / 100 →
      ¬ ops.area inter / ops.area ex > 99 / 100 →
      ops.difference cur ex = .ok none →
      validateLoop ops cur w (ex :: rs) =
        { isValid := false, trimmedGeometry := none, error := some degenerateTrimMsg }) := by
  have hc0 : 0 < c.card := by
    obtain ⟨x, hx⟩ := hne
    exact Finset.card_pos.mpr ⟨x, (Finset.mem_inter.mp hx).1⟩
  have hsub : c ∩ e ⊆ c := Finset.inter_subset_left
  have hlt : (c ∩ e).card < c.card := by
    rcases lt_or_eq_of_le (Finset.card_le_card hsub) with h | h
    · exact h
    · exfalso
      apply h1
      simp only [gridOps, h]
      rw [div_self (by exact_mod_cast hc0.ne')]
      norm_num
  have hsdcard : (c \ e).card + (c ∩ e).card = c.card :=
    Finset.card_sdiff_add_card_inter c e
  have hdiffne : (c \ e).Nonempty := Finset.card_pos.mp (by omega)
  have hi : gridOps.intersect c e = .ok (some (c ∩ e)) := by
    simp only [gridOps]
    rw [if_pos hne]
  have hd : gridOps.difference c e = .ok (some (c \ e)) := by
    simp only [gridOps]
    rw [if_pos hdiffne]
  have hstepAll : ∀ rs : List Grid,
      validateLoop gridOps c false (e :: rs) = validateLoop gridOps (c \ e) true rs := by
    intro rs
    simp only [validateLoop, hi, hd]
    rw [if_neg h1, if_neg h2]
  refine ⟨hstepAll rest, ?_, ?_, ?_, ?_⟩
  · rw [hstepAll []]
    simp [validateLoop]
  · have hone : 0 < (c ∩ e).card := Finset.card_pos.mpr hne
    simp only [gridOps]
    exact_mod_cast (by omega : (c \ e).card < c.card)
  · ext x
    simp [Finset.mem_sdiff]
  · intro Q ops cur ex inter w rs hI hA hB hD
    simp only [validateLoop, hI, hD]
    rw [if_neg hA, if_neg hB]

/-- Witness for C2 on concrete grids: a 1/3 mutual overlap gets trimmed
to the two remaining cells, with smaller area and empty intersection with
the existing polygon; a backend whose difference collapses to empty
rejects as degenerate. -/
theorem claim2_witness :
    validateLoop gridOps cW false [eW] =
      { isValid := true, trimmedGeometry := some (cW \ eW), error := none } ∧
    gridOps.area (cW \ eW) < gridOps.area cW ∧
    (cW \ eW) ∩ eW = ∅ ∧
    validateLoop (withClip (.ok (some iW)) (.ok none)) cW false [eW] =
      { isValid := false, trimmedGeometry := none, error := some degenerateTrimMsg } := by
  have hci : (cW ∩ eW).card = 1 := by decide
  have hcc : cW.card = 3 := by decide
  have hce : eW.card = 3 := by decide
  have hiw : iW.card = 1 := by decide
  have h := claim2_partial_overlap_trim cW eW [] (by decide)
    (by simp only [gridOps, hci, hcc]; norm_num)
    (by simp only [gridOps, hci, hce]; norm_num)
  refine ⟨h.2.1, h.2.2.1, h.2.2.2.1, ?_⟩
  exact h.2.2.2.2 (withClip (.ok (some iW)) (.ok none)) cW eW iW false [] rfl
    (by simp only [withClip, gridOps, hiw, hcc]; norm_num)
    (by simp only [withClip, gridOps, hiw, hce]; norm_num)
    rfl

/-- C4: every mutating operation routes its history change through
`pushToHistory`, which appends the pre-mutation `present` to `past`,
keeps only the last 50 entries (oldest evicted first) and empties
`future`; `undo` instead prepends the current features to `future` and
`redo` pops it; iterating mutations from any in-bound state leaves
`past` at `min (initial + N) 50` entries, hence exactly 50 once `N`
exceeds the cap. -/
theorem claim4_history_push_and_bound (ops : MeasureOps) (s : FeatureState)
    (g : Geometry) (t : ShapeType) (o : PropsOverride) (fid tid : String) (now : Nat)
    (uid : String) (fs : List GeoFeature) (ps : List (List GeoFeature))
    (hadd : (s.features.filter (fun f => f.shapeType == t)).length < shapeLimits t)
    (hupd : (s.features.find? (fun f => f.id == uid)).isSome)
    (hbound : s.history.past.length ≤ MAX_HISTORY_LENGTH) :
    (∀ (h : HistoryState) (p : List GeoFeature), pushToHistory h p =
      { past := sliceLast MAX_HISTORY_LENGTH (h.past ++ [h.present])
        present := p
        future := [] }) ∧
    (addFeature ops s g t o fid tid now).1.history =
      pushToHistory s.history (addFeature ops s g t o fid tid now).1.features ∧
    (updateFeature ops s uid g).history =
      pushToHistory s.history (updateFeature ops s uid g).features ∧
    (removeFeature s uid).history =
      pushToHistory s.history (removeFeature s uid).features ∧
    (clearFeatures s).history = pushToHistory s.history [] ∧
    (setFeatures s fs).history = pushToHistory s.history fs ∧
    (importFeatures s fs).history = pushToHistory s.history (s.features ++ fs) ∧
    (∀ s' : FeatureState, s'.history.past ≠ [] →
      (undo s').history.future = s'.features :: s'.history.future) ∧
    (∀ s' : FeatureState, (redo s').history.future = s'.history.future.tail) ∧
    (∀ (h : HistoryState) (p : List GeoFeature),
      (pushToHistory h p).past.length = min (h.past.length + 1) MAX_HISTORY_LENGTH) ∧
    (ps.foldl pushToHistory s.history).past.length =
      min (s.history.past.length + ps.length) MAX_HISTORY_LENGTH := by
  have hpushlen : ∀ (h : HistoryState) (p : List GeoFeature),
      (pushToHistory h p).past.length = min (h.past.length + 1) MAX_HISTORY_LENGTH := by
    intro h p
    simp only [pushToHistory, sliceLast, List.length_drop, List.length_append,
      List.length_cons, List.length_nil]
    omega
  have key : ∀ (qs : List (List GeoFeature)) (h : HistoryState),
      h.past.length ≤ MAX_HISTORY_LENGTH →
      (qs.foldl pushToHistory h).past.length =
        min (h.past.length + qs.length) MAX_HISTORY_LENGTH := by
    intro qs
    induction qs with
    | nil =>
      intro h hle
      simp only [List.foldl_nil, List.length_nil, Nat.add_zero]
      omega
    | cons q qs ih =>
      intro h hle
      rw [List.foldl_cons, ih (pushToHistory h q) (by rw [hpushlen]; omega)]
      rw [hpushlen]
      simp only [List.length_cons]
      omega
  refine ⟨fun h p => rfl, ?_, ?_, rfl, rfl, rfl, rfl, ?_, ?_, hpushlen, key ps s.history hbound⟩
  · simp only [addFeature]
    rw [if_neg (Nat.not_le.mpr hadd)]
  · obtain ⟨feat, hfeat⟩ := Option.isSome_iff_exists.mp hupd
    simp only [updateFeature, hfeat]
  · intro s' hne'
    obtain ⟨L, b, hLb⟩ := (List.eq_nil_or_concat s'.history.past).resolve_left hne'
    simp [undo, hLb, List.getLast?_concat]
  · intro s'
    rcases hf : s'.history.future with _ | ⟨x, xs⟩ <;> simp [redo, hf]

/-- Witness for C4 at concrete states: `removeFeature` routes through
`pushToHistory` and `undo` prepends the current features to `future`. -/
theorem claim4_witness :
    (removeFeature s8 "a").history =
      pushToHistory s8.history (removeFeature s8 "a").features ∧
    (undo s10).history.future = s10.features :: s10.history.future ∧
    (pushToHistory s8.history []).past.length = 1 := by
  have h := claim4_history_push_and_bound mops0 s8 (Geometry.point (0, 0)) .polygon {}
    "f2" "t2" 0 "a" [] [] (by decide) (by decide) (by decide)
  refine ⟨h.2.2.2.1, h.2.2.2.2.2.2.2.1 s10 (by decide), ?_⟩
  have := h.2.2.2.2.2.2.2.2.2.1 s8.history []
  rw [this]
  decide

/-- C7 counterexample: a candidate `Polygon` with a 3-position ring makes
the turf polygon constructor throw outside the engine's `try/catch`, so
`validatePolygonOverlap` propagates a raw exception instead of returning
an `isValid = false` rejection. -/
theorem claim7_counterexample :
    validatePolygonOverlap gridOps (Geometry.polygon badRing) [] none =
      .error "Each LinearRing of a Polygon must have 4 or more Positions." := rfl

/-- C7 as amended: exceptions thrown by the clipping primitives inside the
per-feature loop (intersection or difference) are caught and normalized
into an `isValid = false` rejection with an explanatory reason; but
candidate normalization happens outside the `try/catch`, so a constructor
exception for malformed rings propagates out of `validatePolygonOverlap`
unchanged. -/
theorem claim7_clipping_exceptions_normalized {P : Type} (ops : ClipOps P)
    (coords : List (List Pos)) (feats : List GeoFeature) (exid : Option String)
    (m : String) (hthrow : ops.mkPolygon coords = .error m) :
    (∀ (cur ex : P) (w : Bool) (rs : List P) (m1 : String),
      ops.intersect cur ex = .error m1 →
      validateLoop ops cur w (ex :: rs) =
        { isValid := false, trimmedGeometry := none, error := some validationFailedMsg }) ∧
    (∀ (cur ex inter : P) (w : Bool) (rs : List P) (m2 : String),
      ops.intersect cur ex = .ok (some inter) →
      ¬ ops.area inter / ops.area cur > 99 / 100 →
      ¬ ops.area inter / ops.area ex > 99 / 100 →
      ops.difference cur ex = .error m2 →
      validateLoop ops cur w (ex :: rs) =
        { isValid := false, trimmedGeometry := none, error := some validationFailedMsg }) ∧
    validatePolygonOverlap ops (Geometry.polygon coords) feats exid = .error m := by
  refine ⟨?_, ?_, ?_⟩
  · intro cur ex w rs m1 hI
    simp [validateLoop, hI]
  · intro cur ex inter w rs m2 hI hA hB hD
    simp only [validateLoop, hI, hD]
    rw [if_neg hA, if_neg hB]
  · simp only [validatePolygonOverlap, getPolygonFromGeometry, hthrow]
    rfl

/-- Witness for C7: concrete backends whose intersection (resp.
difference) throws yield the normalized failure result, while the
malformed-ring candidate makes the whole validation return the raw
constructor error. -/
theorem claim7_witness :
    validateLoop (withClip (.error "boom") (.ok none)) gA false [gA] =
      { isValid := false, trimmedGeometry := none, error := some validationFailedMsg } ∧
    validatePolygonOverlap (withClip (.error "boom") (.ok none))
        (Geometry.polygon badRing) [] none =
      .error "Each LinearRing of a Polygon must have 4 or more Positions." ∧
    validateLoop (withClip (.ok (some gSmall)) (.error "boom2")) gB false [gB] =
      { isValid := false, trimmedGeometry := none, error := some validationFailedMsg } := by
  have hb : gB.card = 3 := by decide
  have hs : gSmall.card = 1 := by decide
  have h1 := claim7_clipping_exceptions_normalized (withClip (.error "boom") (.ok none))
    badRing [] none "Each LinearRing of a Polygon must have 4 or more Positions." rfl
  have h2 := claim7_clipping_exceptions_normalized
    (withClip (.ok (some gSmall)) (.error "boom2"))
    badRing [] none "Each LinearRing of a Polygon must have 4 or more Positions." rfl
  refine ⟨h1.1 gA gA false [] "boom" rfl, h1.2.2, ?_⟩
  exact h2.2.1 gB gB gSmall false [] "boom2" rfl
    (by simp only [withClip, gridOps, hb, hs]; norm_num)
    (by simp only [withClip, gridOps, hb, hs]; norm_num)
    rfl

/-- C9 counterexample: importing the same unit square twice into an empty
store accepts both copies (no skip, no trim), even though validating the
second square against the first accepted one would reject it as fully
contained — the import loop validates only against the committed store
features, not the growing in-batch accepted set. -/
theorem claim9_counterexample :
    (importLoop gridOps [] fidsW 0 [impF, impF]).map
      (fun acc => (acc.importedFeatures.length, acc.skippedCount, acc.trimmedCount)) =
      .ok (2, 0, 0) ∧
    validatePolygonOverlap gridOps pSquare [f9] none =
      .ok { isValid := false, trimmedGeometry := none, error := some fullyContainedMsg } := by
  constructor
  · rfl
  · have h1 : validatePolygonOverlap gridOps pSquare [f9] none =
        Except.ok (validateLoop gridOps sqG false [sqG]) := rfl
    have hi : gridOps.intersect sqG sqG = .ok (some (sqG ∩ sqG)) := by
      simp only [gridOps]
      rw [if_pos (by decide)]
    have hc1 : (sqG ∩ sqG).card = 3 := by decide
    have hc2 : sqG.card = 3 := by decide
    have hr : gridOps.area (sqG ∩ sqG) / gridOps.area sqG > 99 / 100 := by
      simp only [gridOps, hc1, hc2]
      norm_num
    rw [h1]
    simp only [validateLoop, hi]
    rw [if_pos hr]

/-- C9 as amended: import auto-detects the kind from the geometry type
(`Polygon`/`MultiPolygon` ↦ polygon, `LineString` ↦ line, others
skipped), enforces the per-kind caps against the committed count plus the
in-batch accepted count, and for polygonal kinds consults
`validatePolygonOverlap` against the committed store features only: its
result alone decides skip, trimmed accept (bumping the trimmed counter)
or unchanged accept. -/
theorem claim9_import_behavior {P : Type} (ops : ClipOps P)
    (storeFeatures : List GeoFeature) (fids : Nat → String) (now : Nat)
    (acc : ImportAcc) (f : ImportFeature) (g : Geometry) (t : ShapeType)
    (r : ValidationResult P)
    (hg : f.geometry = some g)
    (ht : detectShapeType g = some t) :
    (∀ cs, detectShapeType (Geometry.polygon cs) = some ShapeType.polygon) ∧
    (∀ cs, detectShapeType (Geometry.multiPolygon cs) = some ShapeType.polygon) ∧
    (∀ cs, detectShapeType (Geometry.lineString cs) = some ShapeType.line) ∧
    (∀ p, detectShapeType (Geometry.point p) = none) ∧
    ((storeFeatures.filter (fun x => x.shapeType == t)).length +
        (acc.importedFeatures.filter (fun x => x.shapeType == t)).length ≥
          shapeLimits t →
      importStep ops storeFeatures fids now acc f =
        .ok { acc with skippedCount := acc.skippedCount + 1 }) ∧
    ((storeFeatures.filter (fun x => x.shapeType == t)).length +
        (acc.importedFeatures.filter (fun x => x.shapeType == t)).length <
          shapeLimits t →
      isPolygonalShape t = true →
      validatePolygonOverlap ops g storeFeatures none = .ok r →
      importStep ops storeFeatures fids now acc f =
        .ok (if r.isValid = false then { acc with skippedCount := acc.skippedCount + 1 }
          else
            match r.trimmedGeometry with
            | some trimmed =>
              { acc with
                importedFeatures := acc.importedFeatures ++
                  [mkImportedFeature fids now acc t (ops.toGeometry trimmed) f]
                trimmedCount := acc.trimmedCount + 1 }
            | none =>
              { acc with
                importedFeatures := acc.importedFeatures ++
                  [mkImportedFeature fids now acc t g f] })) := by
  refine ⟨fun cs => rfl, fun cs => rfl, fun cs => rfl, fun p => rfl, ?_, ?_⟩
  · intro hcap
    simp only [importStep, hg, ht]
    rw [if_pos hcap]
  · intro hcap hpol hval
    simp only [importStep, hg, ht]
    rw [if_neg (Nat.not_le.mpr hcap)]
    simp only [hpol, if_true, hval]
    rcases r with ⟨iv, tg, er⟩
    cases iv <;> cases tg <;> rfl

/-- Witness for C9's amended statement: a unit square imported into an
empty store is accepted unchanged, and the same import against a full
ten-polygon store is skipped by the cap check. -/
theorem claim9_witness :
    importStep gridOps [] fidsW 0 ⟨[], 0, 0⟩ impF =
      .ok ⟨[mkImportedFeature fidsW 0 ⟨[], 0, 0⟩ .polygon pSquare impF], 0, 0⟩ ∧
    importStep gridOps tenPolyFeatures fidsW 0 ⟨[], 0, 0⟩ impF = .ok ⟨[], 1, 0⟩ := by
  have h := claim9_import_behavior gridOps [] fidsW 0 ⟨[], 0, 0⟩ impF pSquare .polygon
    { isValid := true } rfl rfl
  have h2 := claim9_import_behavior gridOps tenPolyFeatures fidsW 0 ⟨[], 0, 0⟩ impF
    pSquare .polygon { isValid := true } rfl rfl
  constructor
  · have := h.2.2.2.2.2 (by decide) rfl rfl
    simpa using this
  · have := h2.2.2.2.2.1 (by decide)
    simpa using this

end GeoSketch
